import Mathlib

/-!
# Verification of the paige-ai daily glucose ETL pipeline

A shallow embedding of `src/paige-ai.py`.  Pandas float cells are modelled by
`GVal` (a rational, positive infinity, or NaN — the input domain admits no
negative infinity: readings arrive as numbers, an `n/a` token, or a positive
infinity sentinel).  Dataframes are lists of records; `df.update` is modelled
positionally because the source's `df_missing_values.set_index('uuid')` is not
in place (its result is discarded), so both frames keep their default integer
range index and pandas aligns row `i` with row `i`.  The keyed hash is a full
BLAKE2b implementation over byte lists (`Nat` values below 256, 64-bit words
as `Nat` reduced mod `2 ^ 64`), matching `hashlib.blake2b(key=..,
digest_size=16)`.
-/

/-- A pandas float cell: a finite value, positive infinity, or NaN
(pandas' missing marker for float columns). -/
inductive GVal where
  | num (q : ℚ)
  | inf
  | nan
deriving DecidableEq, Repr

/-- IEEE addition restricted to `{finite, +inf, NaN}`: NaN propagates,
`+inf + x = +inf` for non-NaN `x`.  Models `df['a'] + df['b']` elementwise. -/
def GVal.add : GVal → GVal → GVal
  | .nan, _ => .nan
  | _, .nan => .nan
  | .inf, _ => .inf
  | _, .inf => .inf
  | .num a, .num b => .num (a + b)

/-- Division by the literal 3, as in `(... ) / 3` on a float column. -/
def GVal.div3 : GVal → GVal
  | .num a => .num (a / 3)
  | .inf => .inf
  | .nan => .nan

/-- IEEE `<=` on `{finite, +inf, NaN}`: any comparison with NaN is false. -/
def GVal.leF : GVal → GVal → Bool
  | .nan, _ => false
  | _, .nan => false
  | _, .inf => true
  | .inf, .num _ => false
  | .num a, .num b => decide (a ≤ b)

/-- IEEE `<` on `{finite, +inf, NaN}`: any comparison with NaN is false. -/
def GVal.ltF : GVal → GVal → Bool
  | .nan, _ => false
  | _, .nan => false
  | .inf, _ => false
  | .num _, .inf => true
  | .num a, .num b => decide (a < b)

/-- `pd.isnull` on a float cell: true exactly for NaN (not for infinity). -/
def GVal.isNull : GVal → Bool
  | .nan => true
  | _ => false

/-- `set_blood_sugar_level` (src/paige-ai.py lines 94-100): the row's
`glucose_average` is compared with 140.0 and 199.0; the enum's integer value
is returned (normal 0, pre_diabetic 1, diabetic 2). -/
def set_blood_sugar_level (glucose_average : GVal) : Nat :=
  if glucose_average.leF (.num 140) then 0
  else if glucose_average.ltF (.num 199) then 1
  else 2

/-- `(df['glucose_mgdl_t1'] + df['glucose_mgdl_t2'] + df['glucose_mgdl_t3']) / 3`
(line 175), elementwise on one row. -/
def glucoseAverage (t1 t2 t3 : GVal) : GVal :=
  ((t1.add t2).add t3).div3

/-- A raw CSV token in a glucose column: a numeric literal, the `inf`
sentinel, or a non-numeric token such as `n/a`. -/
inductive Token where
  | tNum (q : ℚ)
  | tInf
  | tNA
deriving DecidableEq, Repr

/-- Whether `np.genfromtxt` can read the token as a float (`inf` parses). -/
def Token.isNumeric : Token → Bool
  | .tNum _ => true
  | .tInf => true
  | .tNA => false

/-- The float a token denotes once parsed: `pd.to_numeric(errors='coerce')`
parses numerals and `inf`, and coerces anything else to NaN. -/
def Token.floatVal : Token → GVal
  | .tNum q => .num q
  | .tInf => .inf
  | .tNA => .nan

/-- A dataframe cell right after `csv_to_df`: `np.genfromtxt(dtype=None)`
types each column as a whole, so a cell is either a parsed float (numeric
column) or the raw token (string column). -/
inductive Cell where
  | flt (v : GVal)
  | str (t : Token)
deriving DecidableEq, Repr

/-- Column typing of `np.genfromtxt(dtype=None)` (line 75): if every token of
the column parses as a float the column is a float column; otherwise every
cell stays a string. -/
def readColumn (col : List Token) : List Cell :=
  if col.all Token.isNumeric then col.map (fun t => .flt t.floatVal)
  else col.map Cell.str

/-- `df[c].replace(np.inf, 2656.0)` on one cell (lines 142-144): only a float
cell equal to `np.inf` matches; the string `'inf'` in a string column is left
alone. -/
def replaceInf (c : Cell) : Cell :=
  match c with
  | .flt .inf => .flt (.num 2656)
  | c => c

/-- `pd.to_numeric(df[c], errors='coerce')` on one cell (lines 149-151):
float cells pass through; strings are parsed, `'inf'` becoming positive
infinity and unparseable tokens becoming NaN. -/
def toNumericCoerce (c : Cell) : GVal :=
  match c with
  | .flt v => v
  | .str t => t.floatVal

/-- One glucose column through lines 142-155: read, infinity replacement,
then numeric coercion. -/
def normalizeColumn (col : List Token) : List GVal :=
  ((readColumn col).map replaceInf).map toNumericCoerce

/-- One row of the day's CSV after column cleanup (lines 129-136): the five
identity fields, the three glucose readings (already normalized to floats),
and the added `date` column. -/
structure RawRecord where
  patient_id : Int
  first_name : String
  last_name : String
  email : String
  address : String
  glucose_mgdl_t1 : GVal
  glucose_mgdl_t2 : GVal
  glucose_mgdl_t3 : GVal
  date : String
deriving DecidableEq, Repr

/-- A row after the `uuid` column is added and the five PII columns are
dropped (lines 160-163). -/
structure WorkingRecord where
  uuid : String
  date : String
  glucose_mgdl_t1 : GVal
  glucose_mgdl_t2 : GVal
  glucose_mgdl_t3 : GVal
deriving DecidableEq, Repr

/-- A row once the `glucose_average` column is added (line 175). -/
structure AvgRecord extends WorkingRecord where
  glucose_average : GVal
deriving DecidableEq, Repr

/-- A complete row once the `blood_sugar_level` column is added (line 188). -/
structure FinalRecord extends AvgRecord where
  blood_sugar_level : Nat
deriving DecidableEq, Repr

/-- The five PII columns dropped at line 163. -/
def piiColumns : List String :=
  ["patient_id", "first_name", "last_name", "email", "address"]

/-- The dataframe's columns after reading, renaming, and adding `date` and
`uuid` (lines 129-160). -/
def rawColumns : List String :=
  ["patient_id", "first_name", "last_name", "email", "address",
   "glucose_mgdl_t1", "glucose_mgdl_t2", "glucose_mgdl_t3", "date", "uuid"]

/-- `df.drop(piiColumns, axis=1)` (line 163) applied to the column list. -/
def workingColumns : List String :=
  rawColumns.filter (fun c => !(piiColumns.contains c))

/-- The columns of a persisted DynamoDB item (lines 175, 188, 211): the
working columns plus the two derived columns. -/
def persistedColumns : List String :=
  workingColumns ++ ["glucose_average", "blood_sugar_level"]

/-- `df.update(df_missing_values)` on a pair of aligned rows: pandas takes
`other`'s value wherever it is non-NA and keeps the original otherwise
(`overwrite=True` is the default).  CSV-sourced string cells (`uuid`,
`date`) are never NA, so they are always taken from `other`. -/
def updateRecord (cur other : WorkingRecord) : WorkingRecord :=
  { uuid := other.uuid
    date := other.date
    glucose_mgdl_t1 :=
      if other.glucose_mgdl_t1.isNull then cur.glucose_mgdl_t1
      else other.glucose_mgdl_t1
    glucose_mgdl_t2 :=
      if other.glucose_mgdl_t2.isNull then cur.glucose_mgdl_t2
      else other.glucose_mgdl_t2
    glucose_mgdl_t3 :=
      if other.glucose_mgdl_t3.isNull then cur.glucose_mgdl_t3
      else other.glucose_mgdl_t3 }

/-- `df.update(df_missing_values)` (line 170).  `df_missing_values.set_index('uuid')`
at line 169 is not in place — its result is discarded — so both frames keep
their default range index 0,1,2,... and pandas aligns row `i` of `df` with
row `i` of `df_missing_values`; rows of `df` beyond `other`'s length are
unchanged, surplus rows of `other` are ignored (left join on the index). -/
def dfUpdate : List WorkingRecord → List WorkingRecord → List WorkingRecord
  | [], _ => []
  | r :: rs, [] => r :: rs
  | r :: rs, o :: os => updateRecord r o :: dfUpdate rs os

/-- Lines 166-172: the carryover read is wrapped in `try/except Exception:
pass`, so an absent, unreadable, or malformed `missing_averages.csv`
(`carry = none`) leaves `df` untouched; a successful read applies
`df.update`. -/
def mergeStep (df : List WorkingRecord) (carry : Option (List WorkingRecord)) :
    List WorkingRecord :=
  match carry with
  | some dfMissingValues => dfUpdate df dfMissingValues
  | none => df

/-- Line 175: append the `glucose_average` column to one row. -/
def addAverage (r : WorkingRecord) : AvgRecord :=
  { r with
    glucose_average :=
      glucoseAverage r.glucose_mgdl_t1 r.glucose_mgdl_t2 r.glucose_mgdl_t3 }

/-- `df[df['glucose_average'].isnull()]` (line 180): the incomplete
partition. -/
def dfNoAverage (df : List AvgRecord) : List AvgRecord :=
  df.filter (fun r => r.glucose_average.isNull)

/-- `df.drop(df.loc[df['glucose_average'].isnull()].index)` (line 184): the
rows that remain in `df`, i.e. the complete partition. -/
def dfComplete (df : List AvgRecord) : List AvgRecord :=
  df.filter (fun r => !r.glucose_average.isNull)

/-- Line 188: append the `blood_sugar_level` column to one complete row. -/
def addLevel (r : AvgRecord) : FinalRecord :=
  { r with blood_sugar_level := set_blood_sugar_level r.glucose_average }

/-- Lines 166-188 end to end: merge the carryover (`none` = read failed),
compute averages, partition, and classify the complete partition.  Returns
(complete records as persisted, incomplete records as carried forward). -/
def reconcile (df : List WorkingRecord) (carry : Option (List WorkingRecord)) :
    List FinalRecord × List AvgRecord :=
  let merged := (mergeStep df carry).map addAverage
  ((dfComplete merged).map addLevel, dfNoAverage merged)

/-- The DynamoDB write loop (lines 209-213): `table.put_item` is called once
per record with no surrounding try/except, so the first failing write raises
out of the loop.  `writeOk` says whether a record's write succeeds; the
result is (records actually persisted, whether the run aborted). -/
def putLoop (writeOk : FinalRecord → Bool) :
    List FinalRecord → List FinalRecord × Bool
  | [] => ([], false)
  | r :: rs =>
    if writeOk r then
      let p := putLoop writeOk rs
      (r :: p.1, p.2)
    else ([], true)

/-- `2 ^ 64`, the word modulus of BLAKE2b. -/
def w64 : Nat := 2 ^ 64

/-- 64-bit wrapping addition. -/
def add64 (a b : Nat) : Nat := (a + b) % w64

/-- 64-bit right rotation (the argument is assumed below `2 ^ 64`). -/
def rotr64 (x n : Nat) : Nat := ((x >>> n) ||| (x <<< (64 - n))) % w64

/-- The BLAKE2b initialization vector (RFC 7693, the SHA-512 IV). -/
def blakeIV : Nat → Nat
  | 0 => 0x6a09e667f3bcc908
  | 1 => 0xbb67ae8584caa73b
  | 2 => 0x3c6ef372fe94f82b
  | 3 => 0xa54ff53a5f1d36f1
  | 4 => 0x510e527fade682d1
  | 5 => 0x9b05688c2b3e6c1f
  | 6 => 0x1f83d9abfb41bd6b
  | 7 => 0x5be0cd19137e2179
  | _ => 0

/-- The BLAKE2b message schedule: rounds 10 and 11 reuse rows 0 and 1. -/
def blakeSigma : Nat → List Nat
  | 0 => [0, 1, 2, 3, 4, 5, 6, 7, 8, 9, 10, 11, 12, 13, 14, 15]
  | 1 => [14, 10, 4, 8, 9, 15, 13, 6, 1, 12, 0, 2, 11, 7, 5, 3]
  | 2 => [11, 8, 12, 0, 5, 2, 15, 13, 10, 14, 3, 6, 7, 1, 9, 4]
  | 3 => [7, 9, 3, 1, 13, 12, 11, 14, 2, 6, 5, 10, 4, 0, 15, 8]
  | 4 => [9, 0, 5, 7, 2, 4, 10, 15, 14, 1, 11, 12, 6, 8, 3, 13]
  | 5 => [2, 12, 6, 10, 0, 11, 8, 3, 4, 13, 7, 5, 15, 14, 1, 9]
  | 6 => [12, 5, 1, 15, 14, 13, 4, 10, 0, 7, 6, 3, 9, 2, 8, 11]
  | 7 => [13, 11, 7, 14, 12, 1, 3, 9, 5, 0, 15, 4, 8, 6, 2, 10]
  | 8 => [6, 15, 14, 9, 11, 3, 0, 8, 12, 2, 13, 7, 1, 4, 10, 5]
  | 9 => [10, 2, 8, 4, 7, 6, 1, 5, 15, 11, 9, 14, 3, 12, 13, 0]
  | n + 10 => blakeSigma n

/-- The BLAKE2b G mixing function on the 16-word working vector `v`
(indices 0..15), mixing message words `x` and `y` into positions
`a b c d`. -/
def mixG (v : List Nat) (a b c d : Nat) (x y : Nat) : List Nat :=
  let va1 := add64 (add64 (v.getD a 0) (v.getD b 0)) x
  let vd1 := rotr64 (Nat.xor (v.getD d 0) va1) 32
  let vc1 := add64 (v.getD c 0) vd1
  let vb1 := rotr64 (Nat.xor (v.getD b 0) vc1) 24
  let va2 := add64 (add64 va1 vb1) y
  let vd2 := rotr64 (Nat.xor vd1 va2) 16
  let vc2 := add64 vc1 vd2
  let vb2 := rotr64 (Nat.xor vb1 vc2) 63
  (((v.set a va2).set b vb2).set c vc2).set d vd2

/-- One BLAKE2b round: eight G applications (four columns, four
diagonals) with message words picked by the round's sigma row. -/
def blakeRound (m : Nat → Nat) (r : Nat) (v : List Nat) : List Nat :=
  let s := blakeSigma r
  let g := fun (vv : List Nat) (a b c d i : Nat) =>
    mixG vv a b c d (m (s.getD (2 * i) 0)) (m (s.getD (2 * i + 1) 0))
  let v1 := g v 0 4 8 12 0
  let v2 := g v1 1 5 9 13 1
  let v3 := g v2 2 6 10 14 2
  let v4 := g v3 3 7 11 15 3
  let v5 := g v4 0 5 10 15 4
  let v6 := g v5 1 6 11 12 5
  let v7 := g v6 2 7 8 13 6
  g v7 3 4 9 14 7

/-- Little-endian 64-bit word `j` of a 128-byte block. -/
def leWord (block : List Nat) (j : Nat) : Nat :=
  (List.range 8).foldl (fun acc k => acc + ((block.getD (8 * j + k) 0) <<< (8 * k))) 0

/-- The BLAKE2b compression function: state `h` (a list of 8 words), one
128-byte block, byte counter `t`, and the final-block flag. -/
def blakeCompress (h : List Nat) (block : List Nat) (t : Nat) (isLast : Bool) :
    List Nat :=
  let m := leWord block
  let v0 := (List.range 16).map (fun i => if i < 8 then h.getD i 0 else blakeIV (i - 8))
  let v1 := (v0.set 12 (Nat.xor (v0.getD 12 0) (t % w64))).set 13
    (Nat.xor (v0.getD 13 0) ((t / w64) % w64))
  let v2 := if isLast then v1.set 14 (Nat.xor (v1.getD 14 0) (w64 - 1)) else v1
  let vf := (List.range 12).foldl (fun v r => blakeRound m r v) v2
  (List.range 8).map (fun i => Nat.xor (h.getD i 0) (Nat.xor (vf.getD i 0) (vf.getD (i + 8) 0)))

/-- Split a nonempty byte list into 128-byte blocks, zero-padding the last. -/
def chunks128 (l : List Nat) : List (List Nat) :=
  if h : l.length ≤ 128 then [l ++ List.replicate (128 - l.length) 0]
  else l.take 128 :: chunks128 (l.drop 128)
termination_by l.length
decreasing_by simp [List.length_drop]; omega

/-- `hashlib.blake2b(key=key, digest_size=outLen)` over `msg`, RFC 7693
sequential mode: the parameter word is xored into `h0`, a nonempty key is
zero-padded to one 128-byte block and processed first, and the byte counter
covers the key block.  Returns the `outLen`-byte digest (little-endian
serialization of the state). -/
def blake2b (key : List Nat) (outLen : Nat) (msg : List Nat) : List Nat :=
  let keyBlocks : List (List Nat) :=
    if key.isEmpty then [] else [key ++ List.replicate (128 - key.length) 0]
  let msgBlocks : List (List Nat) := if msg.isEmpty then [] else chunks128 msg
  let blocks0 := keyBlocks ++ msgBlocks
  let blocks := if blocks0.isEmpty then [List.replicate 128 0] else blocks0
  let total := (if key.isEmpty then 0 else 128) + msg.length
  let n := blocks.length
  let h0 := ((List.range 8).map blakeIV).set 0
    (Nat.xor (blakeIV 0) (Nat.xor 0x01010000 (Nat.xor (key.length <<< 8) outLen)))
  let hf := (List.range n).foldl
    (fun h i =>
      blakeCompress h (blocks.getD i [])
        (if i + 1 = n then total else 128 * (i + 1)) (i + 1 = n))
    h0
  (List.range outLen).map (fun i => ((hf.getD (i / 8) 0) >>> (8 * (i % 8))) % 256)

/-- One hexadecimal digit, lowercase as `hexdigest` renders it. -/
def hexDigit (n : Nat) : Char :=
  if n < 10 then Char.ofNat (48 + n) else Char.ofNat (87 + n)

/-- `hexdigest()`: two lowercase hex digits per byte. -/
def bytesToHex (l : List Nat) : String :=
  String.mk ((l.map (fun b => [hexDigit (b / 16), hexDigit (b % 16)])).flatten)

/-- UTF-8 encoding of one character, as Python's `str.encode()` produces. -/
def utf8Bytes (c : Char) : List Nat :=
  let n := c.toNat
  if n < 0x80 then [n]
  else if n < 0x800 then
    [0xC0 ||| (n >>> 6), 0x80 ||| (n &&& 0x3F)]
  else if n < 0x10000 then
    [0xE0 ||| (n >>> 12), 0x80 ||| ((n >>> 6) &&& 0x3F), 0x80 ||| (n &&& 0x3F)]
  else
    [0xF0 ||| (n >>> 18), 0x80 ||| ((n >>> 12) &&& 0x3F),
     0x80 ||| ((n >>> 6) &&& 0x3F), 0x80 ||| (n &&& 0x3F)]

/-- `s.encode()`: the UTF-8 bytes of a string. -/
def strBytes (s : String) : List Nat := (s.data.map utf8Bytes).flatten

/-- `get_hash` (lines 80-91): the keyed BLAKE2b-128 hex digest of
`str(patient_id) + first_name + last_name + email`.  The address, the
readings, and the date are not part of the input. -/
def get_hash (hashKey : List Nat) (row : RawRecord) : String :=
  bytesToHex (blake2b hashKey 16
    (strBytes (toString row.patient_id ++ row.first_name ++ row.last_name ++
      row.email)))

/-- Lines 160-163 on one row: compute the `uuid` from the PII, then drop the
five PII columns; the working row carries only the uuid, the date, and the
three readings. -/
def toWorking (hashKey : List Nat) (r : RawRecord) : WorkingRecord :=
  { uuid := get_hash hashKey r
    date := r.date
    glucose_mgdl_t1 := r.glucose_mgdl_t1
    glucose_mgdl_t2 := r.glucose_mgdl_t2
    glucose_mgdl_t3 := r.glucose_mgdl_t3 }

/-- A current-day row whose three readings are all present. -/
def todayRow : WorkingRecord :=
  { uuid := "u1", date := "2021-05-19", glucose_mgdl_t1 := .num 95,
    glucose_mgdl_t2 := .num 100, glucose_mgdl_t3 := .num 110 }

/-- A carryover row with a different surrogate id and one missing reading. -/
def carryRow : WorkingRecord :=
  { uuid := "u2", date := "2021-05-18", glucose_mgdl_t1 := .num 120,
    glucose_mgdl_t2 := .nan, glucose_mgdl_t3 := .num 130 }

/-- A complete record classified normal (average 100). -/
def recA : FinalRecord :=
  { uuid := "a", date := "2021-05-19", glucose_mgdl_t1 := .num 100,
    glucose_mgdl_t2 := .num 100, glucose_mgdl_t3 := .num 100,
    glucose_average := .num 100, blood_sugar_level := 0 }

/-- A complete record classified pre-diabetic (average 150). -/
def recB : FinalRecord :=
  { uuid := "b", date := "2021-05-19", glucose_mgdl_t1 := .num 150,
    glucose_mgdl_t2 := .num 150, glucose_mgdl_t3 := .num 150,
    glucose_average := .num 150, blood_sugar_level := 1 }

/-- A write outcome in which exactly `recA`'s `put_item` call raises. -/
def writeFailsOnA : FinalRecord → Bool := fun r => !(r.uuid == "a")

theorem length_filter_add_length_filter_not {α : Type} (p : α → Bool) (l : List α) :
    (l.filter p).length + (l.filter (fun a => !p a)).length = l.length := by
  induction l with
  | nil => rfl
  | cons a l ih =>
    by_cases h : p a <;> simp [List.filter_cons, h] <;> omega

theorem hex_pairs_length (l : List Nat) :
    ((l.map (fun b => [hexDigit (b / 16), hexDigit (b % 16)])).flatten).length =
      2 * l.length := by
  induction l with
  | nil => rfl
  | cons b l ih => simp [ih]; omega

theorem bytesToHex_length (l : List Nat) : (bytesToHex l).length = 2 * l.length := by
  simpa [bytesToHex, String.length] using hex_pairs_length l

theorem blake2b_length (key : List Nat) (outLen : Nat) (msg : List Nat) :
    (blake2b key outLen msg).length = outLen := by
  simp [blake2b]

theorem dfUpdate_nil_right (df : List WorkingRecord) : dfUpdate df [] = df := by
  cases df <;> rfl

/-- C1: the claim says the carryover merge matches records by SurrogateId and
only fills missing readings (today wins).  The code's merge does neither:
`set_index('uuid')` at line 169 is not in place, so `df.update` at line 170
aligns rows positionally, and its default `overwrite=True` takes every non-NA
carryover value.  Here today's row 0 (uuid "u1", all readings present) is
overwritten by carryover row 0 (uuid "u2"): the merged row gets uuid "u2",
yesterday's date, and readings 120/100/130 although today's reading t1 was
the non-missing 95 and no carryover entry has uuid "u1". -/
theorem carryover_merge_is_positional_and_overwrites :
    dfUpdate [todayRow] [carryRow] =
      [{ uuid := "u2", date := "2021-05-18", glucose_mgdl_t1 := .num 120,
         glucose_mgdl_t2 := .num 100, glucose_mgdl_t3 := .num 130 }] ∧
    todayRow.uuid ≠ carryRow.uuid ∧
    todayRow.glucose_mgdl_t1 = .num 95 := by
  exact ⟨rfl, by decide, rfl⟩

/-- C2: after the averages are computed, every record lands in exactly one of
the two partitions of lines 180-185 — the incomplete partition holds exactly
the records with a null average, the complete partition exactly those with a
non-null average, the two are disjoint, and their sizes sum to the number of
records after merge. -/
theorem partition_complete_incomplete_exact (df : List AvgRecord) :
    (dfComplete df).length + (dfNoAverage df).length = df.length ∧
    (∀ r, r ∈ dfNoAverage df ↔ r ∈ df ∧ r.glucose_average.isNull = true) ∧
    (∀ r, r ∈ dfComplete df ↔ r ∈ df ∧ r.glucose_average.isNull = false) ∧
    (∀ r, ¬(r ∈ dfComplete df ∧ r ∈ dfNoAverage df)) := by
  refine ⟨?_, ?_, ?_, ?_⟩
  · simpa [dfComplete, dfNoAverage, Nat.add_comm] using
      length_filter_add_length_filter_not (fun r : AvgRecord => r.glucose_average.isNull) df
  · intro r; simp [dfNoAverage, List.mem_filter]
  · intro r; simp [dfComplete, List.mem_filter]
  · intro r h
    have h1 := (List.mem_filter.mp h.1).2
    have h2 := (List.mem_filter.mp h.2).2
    simp at h1
    rw [h1] at h2
    cases h2

/-- C3: the derived average (line 175) is non-null iff all three readings are
non-missing, and on three finite readings it is exactly `(r1 + r2 + r3) / 3`.
NaN is the null marker; a positive-infinity reading (possible only through
the sentinel leak, see C8) is non-null and keeps the average non-null, so
the equivalence is stated over the full cell domain. -/
theorem average_null_iff_reading_missing :
    (∀ t1 t2 t3 : GVal,
      glucoseAverage t1 t2 t3 = .nan ↔ (t1 = .nan ∨ t2 = .nan ∨ t3 = .nan)) ∧
    (∀ a b c : ℚ,
      glucoseAverage (.num a) (.num b) (.num c) = .num ((a + b + c) / 3)) := by
  constructor
  · intro t1 t2 t3
    cases t1 <;> cases t2 <;> cases t3 <;>
      simp [glucoseAverage, GVal.add, GVal.div3]
  · intro a b c
    rfl

/-- C4: the classifier (lines 94-100) returns normal (0) for any average at
most 140, pre-diabetic (1) strictly between 140 and 199, diabetic (2) from
199 on; in particular 140 itself is normal and 199 itself is diabetic. -/
theorem classifier_boundaries_exact :
    (∀ a : ℚ, a ≤ 140 → set_blood_sugar_level (.num a) = 0) ∧
    (∀ a : ℚ, 140 < a → a < 199 → set_blood_sugar_level (.num a) = 1) ∧
    (∀ a : ℚ, 199 ≤ a → set_blood_sugar_level (.num a) = 2) ∧
    set_blood_sugar_level (.num 140) = 0 ∧
    set_blood_sugar_level (.num 199) = 2 := by
  refine ⟨?_, ?_, ?_, by decide, by decide⟩
  · intro a h
    simp [set_blood_sugar_level, GVal.leF, h]
  · intro a h1 h2
    simp [set_blood_sugar_level, GVal.leF, GVal.ltF, not_le.mpr h1, h2]
  · intro a h
    have h1 : ¬a ≤ 140 := by linarith
    have h2 : ¬a < 199 := by linarith
    simp [set_blood_sugar_level, GVal.leF, GVal.ltF, h1, h2]

/-- C5 (counterexample): the claim says one failed `put_item` is logged and
the remaining records are still written.  The loop at lines 210-213 has no
try/except, so the first raising write aborts it: with the failure on `recA`,
nothing is persisted and the run aborts even though `recB`'s own write would
have succeeded. -/
theorem put_item_failure_drops_remaining :
    putLoop writeFailsOnA [recA, recB] = ([], true) ∧
    writeFailsOnA recB = true ∧
    recA ≠ recB := by
  refine ⟨rfl, rfl, by decide⟩

/-- C5 (amended): an uncaught `put_item` failure propagates out of the loop —
exactly the records before the first failing write are persisted (the loop's
prefix of successful writes), and the run aborts iff some write fails. -/
theorem put_item_loop_aborts_at_first_failure (writeOk : FinalRecord → Bool)
    (recs : List FinalRecord) :
    putLoop writeOk recs = (recs.takeWhile writeOk, !recs.all writeOk) := by
  induction recs with
  | nil => rfl
  | cons r rs ih =>
    by_cases h : writeOk r <;>
      simp [putLoop, List.takeWhile_cons, h, ih]

/-- C6: no identity field survives pseudonymization.  Column level: none of
the five PII columns dropped at line 163 is among the working columns or the
persisted item's columns.  Value level: the working record built at lines
160-163 is unchanged under any change of the address field — the address
enters neither the hash input nor the record. -/
theorem pii_dropped_after_pseudonymization :
    (piiColumns.all
      (fun c => !(workingColumns.contains c) && !(persistedColumns.contains c))) = true ∧
    (∀ (hashKey : List Nat) (pid : Int) (fn ln em ad ad' d : String)
        (t1 t2 t3 : GVal),
      toWorking hashKey ⟨pid, fn, ln, em, ad, t1, t2, t3, d⟩ =
        toWorking hashKey ⟨pid, fn, ln, em, ad', t1, t2, t3, d⟩) := by
  exact ⟨by decide, fun _ _ _ _ _ _ _ _ _ _ _ => rfl⟩

/-- C7: a failed carryover read (`none`, from the `try/except Exception:
pass` at lines 166-172) yields exactly the same reconciliation result —
merged records, both partitions, and classifications — as an empty carryover
set, and the reconciliation is a total function, so the run is not aborted. -/
theorem carryover_failure_equals_empty_set (df : List WorkingRecord) :
    reconcile df none = reconcile df (some []) := by
  simp [reconcile, mergeStep, dfUpdate_nil_right]

/-- C8: the claim says every positive-infinity sentinel is replaced by 2656.0
before averaging.  That holds only for columns `np.genfromtxt` types as
numeric (last conjunct).  In a column that also contains a non-numeric token
such as `n/a`, every cell is read as a string, the `replace(np.inf, ...)` at
lines 142-144 matches nothing, and `pd.to_numeric(..., errors='coerce')` at
lines 149-151 then turns the string `'inf'` into positive infinity — which
reaches the averaging step (first two conjuncts). -/
theorem inf_sentinel_survives_in_string_column :
    normalizeColumn [Token.tNA, Token.tInf] = [GVal.nan, GVal.inf] ∧
    GVal.inf ∈ normalizeColumn [Token.tNA, Token.tInf] ∧
    (∀ col : List Token, col.all Token.isNumeric = true →
      GVal.inf ∉ normalizeColumn col) := by
  refine ⟨rfl, by decide, ?_⟩
  intro col h
  simp only [normalizeColumn, readColumn, h, if_true, List.map_map, List.mem_map]
  rintro ⟨t, _, heq⟩
  cases t <;> simp [Token.floatVal, replaceInf, toNumericCoerce, Function.comp] at heq

/-- C9: the surrogate id (lines 80-91) is a pure function of the key and the
ordered identity tuple (patient_id, first_name, last_name, email): changing
the address, the readings, or the date never changes it; and it is the hex
rendering of the 16-byte keyed BLAKE2b digest, hence 32 characters. -/
theorem surrogate_id_function_of_identity_tuple :
    (∀ (hashKey : List Nat) (pid : Int) (fn ln em ad ad' d d' : String)
        (t1 t2 t3 s1 s2 s3 : GVal),
      get_hash hashKey ⟨pid, fn, ln, em, ad, t1, t2, t3, d⟩ =
        get_hash hashKey ⟨pid, fn, ln, em, ad', s1, s2, s3, d'⟩) ∧
    (∀ (hashKey : List Nat) (r : RawRecord), (get_hash hashKey r).length = 32) := by
  constructor
  · intro hashKey pid fn ln em ad ad' d d' t1 t2 t3 s1 s2 s3
    rfl
  · intro hashKey r
    simp [get_hash, bytesToHex_length, blake2b_length]

/-- C10: the classifier is total over every float cell (its value is always
one of 0, 1, 2), a NaN average falls through both guards and is classified
diabetic (2), and the pipeline avoids persisting that misclassification only
because the complete partition contains no record with a null average. -/
theorem classifier_total_nan_goes_diabetic :
    (∀ v : GVal, set_blood_sugar_level v = 0 ∨ set_blood_sugar_level v = 1 ∨
      set_blood_sugar_level v = 2) ∧
    set_blood_sugar_level GVal.nan = 2 ∧
    (∀ df : List AvgRecord,
      ((dfComplete df).all (fun r => !r.glucose_average.isNull)) = true) := by
  refine ⟨?_, rfl, ?_⟩
  · intro v
    simp only [set_blood_sugar_level]
    split
    · exact Or.inl rfl
    · split
      · exact Or.inr (Or.inl rfl)
      · exact Or.inr (Or.inr rfl)
  · intro df
    rw [List.all_eq_true]
    intro r hr
    exact (List.mem_filter.mp hr).2
